import Mathlib

/-!
Shallow embedding of `gip.py`, a diagnostic tool speaking the GIP game-pad
protocol, together with proofs about its codec and session-loop logic.

Python conventions are modelled as follows: byte buffers are `List Nat`
(each element a byte value), Python `int` is `Int`, Python list indexing
`xs[i]` (which raises `IndexError` when out of range) is `xs[i]?` in the
`Option` monad, so a `none` result marks an execution that raises.  Python
floor division `//` is `Int.fdiv`, `&`/`|` on `int` are `Int.land`/`Int.lor`
(two's-complement on negatives, exactly as in Python), and mutation of
objects is explicit state passing.
-/

namespace Gip

/-- Sequence counter: a single mutable byte-sized value, embedded as a
one-field state record.  `__init__` sets the value to 0. -/
structure Seq where
  _value : Nat
deriving DecidableEq, Repr

/-- Constructor `Seq()` from the source: starts at 0. -/
def Seq.init : Seq :=
  ⟨0⟩

/-- Property `Seq.value`: returns the current value and stores
`(value + 1) & 0xff` back.  The returned pair is (result, new state). -/
def Seq.value (s : Seq) : Nat × Seq :=
  (s._value, ⟨(s._value + 1) &&& 0xff⟩)

/-- Property `Seq.current_value`: returns the stored value; the state is
returned unchanged to make the absence of mutation explicit. -/
def Seq.current_value (s : Seq) : Nat × Seq :=
  (s._value, s)

/-- Enumeration `GipCmd` from the source. -/
inductive GipCmd
  | Identify
  | Power
  | Authenticate
  | Rumble
  | LED
deriving DecidableEq, Repr

/-- Numeric values of the `GipCmd` enumeration members. -/
def GipCmd.value : GipCmd → Nat
  | .Identify => 0x04
  | .Power => 0x05
  | .Authenticate => 0x06
  | .Rumble => 0x09
  | .LED => 0x0a

/-- Function `make_gip_packet(cmd, *args, seq)`: builds
`[cmd.value, 0x20, int(seq), -1, *args]` and then overwrites index 3 with
`len(data) - 4`.  Returns the packet and the advanced sequence counter. -/
def make_gip_packet (cmd : GipCmd) (args : List Int) (seq : Seq) : List Int × Seq :=
  let r := seq.value
  let data : List Int := [Int.ofNat cmd.value, 0x20, Int.ofNat r.1, -1] ++ args
  let data := data.set 3 ((data.length : Int) - 4)
  (data, r.2)

/-- Constant `GIP_MOTOR_ALL` from the source. -/
def GIP_MOTOR_ALL : Int := 0xf

/-- Function `make_gip_rumble_packet(lt, rt, la, ra, seq, on, off, repeat)`:
builds the 13-byte rumble packet and overwrites index 3 with
`len(data) - 4`.  The Python defaults are `on=0xff, off=0x00, repeat=0xff`;
here all three are explicit parameters. -/
def make_gip_rumble_packet (lt rt la ra : Int) (seq : Seq)
    (onv : Int) (offv : Int) (rep : Int) : List Int × Seq :=
  let r := seq.value
  let data : List Int :=
    [Int.ofNat GipCmd.Rumble.value, 0x00, Int.ofNat r.1, -1, 0x00, GIP_MOTOR_ALL,
      lt, rt, la, ra, onv, offv, rep]
  let data := data.set 3 ((data.length : Int) - 4)
  (data, r.2)

/-- Function `to_signed_16(n)`: `n = n & 0xffff; return n | (-(n & 0x8000))`,
with Python's two's-complement bitwise semantics on `int`. -/
def to_signed_16 (n : Int) : Int :=
  let m := Int.land n 0xffff
  Int.lor m (-(Int.land m 0x8000))

/-- Function `le16(value)`: `to_signed_16(value[0] | (value[1] << 8))`.
Indexing a list shorter than 2 raises `IndexError`, modelled by `none`. -/
def le16 (value : List Nat) : Option Int :=
  (value[0]?).bind fun v0 =>
  (value[1]?).bind fun v1 =>
  some (to_signed_16 (Int.ofNat (v0 ||| (v1 <<< 8))))

/-- Function `get_bit(array, byte, bit)`: returns `False` when
`byte > len(array)`, otherwise evaluates `(array[byte] & (1 << bit)) > 0`.
Note the guard uses a strict `>`, so `byte == len(array)` falls through to
the indexing, which raises `IndexError` (modelled by `none`). -/
def get_bit (array : List Nat) (byte : Nat) (bit : Nat) : Option Bool :=
  if byte > array.length then
    some false
  else
    (array[byte]?).map (fun a => decide (a &&& (1 <<< bit) > 0))

/-- Function `active(text)`: wraps the text in ANSI bright-red escapes. -/
def active (text : String) : String :=
  "\x1b[91m" ++ text ++ "\x1b[0m"

/-- Function `add_if(to, name, cond)`: appends the highlighted name when the
condition holds, otherwise the lowercased name. -/
def add_if (to_ : List String) (name : String) (cond : Bool) : List String :=
  if cond then
    to_ ++ [active name]
  else
    to_ ++ [name.toLower]

/-- Helper for Python's `"...%+05x" % value`: sign character followed by the
magnitude in lowercase hex, zero-padded to four digits. -/
def fmt_plus05x (value : Int) : String :=
  let sign := if value < 0 then "-" else "+"
  let digits := String.mk (Nat.toDigits 16 value.natAbs)
  sign ++ String.mk (List.replicate (4 - digits.length) '0') ++ digits

/-- Python `fmt % value` for the two format shapes used by the source:
a literal prefix followed by either `%d` or `%+05x`. -/
def pyFormat (fmt : String) (value : Int) : String :=
  let pre := fmt.takeWhile (fun c => c ≠ '%')
  let tail := fmt.drop pre.length
  if tail = "%d" then pre ++ toString value else pre ++ fmt_plus05x value

/-- Function `add_val(to, fmt, value)`: appends the formatted value and
returns the value (the Python function mutates `to` and returns `value`;
here, the new list and value are returned as a pair). -/
def add_val (to_ : List String) (fmt : String) (value : Int) : List String × Int :=
  (to_ ++ [pyFormat fmt value], value)

/-- Little-endian two's-complement 16-bit encoding: the inverse direction the
spec asserts for `decodeSigned16LE` (refinement-side definition following the
spec's words, not taken from the source). -/
def encodeSigned16LE (v : Int) : List Nat :=
  [(v % 65536).toNat % 256, (v % 65536).toNat / 256]

/-- State of the sequence counter after `n` calls of the `value` property. -/
def seqRun : Nat → Seq
  | 0 => Seq.init
  | n + 1 => ((seqRun n).value).2

example : Seq.init.value = (0, ⟨1⟩) := rfl
example : (make_gip_packet .LED [0x00, 0x01, 0x14] Seq.init).1 =
    [0x0a, 0x20, 0, 3, 0x00, 0x01, 0x14] := rfl
example : (make_gip_rumble_packet 1 2 3 4 Seq.init 0xff 0x00 0xff).1 =
    [0x09, 0x00, 0, 9, 0x00, 0x0f, 1, 2, 3, 4, 0xff, 0x00, 0xff] := rfl
example : le16 [0xff, 0x7f] = some 32767 := rfl
example : get_bit [] 0 0 = none := rfl
example : get_bit [] 1 0 = some false := rfl

/-! Arithmetic characterisation of the two's-complement reinterpretation
performed by `to_signed_16` on the byte-built unsigned values it receives. -/

lemma int_land_ofNat (m n : Nat) :
    Int.land (Int.ofNat m) (Int.ofNat n) = Int.ofNat (m &&& n) := rfl

lemma int_lor_ofNat (m n : Nat) :
    Int.lor (Int.ofNat m) (Int.ofNat n) = Int.ofNat (m ||| n) := rfl

lemma int_lor_ofNat_negSucc (m n : Nat) :
    Int.lor (Int.ofNat m) (Int.negSucc n) = Int.negSucc (Nat.ldiff n m) := rfl

lemma ldiff_mask_high (r : Nat) (h : r < 32768) :
    Nat.ldiff 32767 (32768 + r) = 32767 - r := by
  apply Nat.eq_of_testBit_eq
  intro i
  rw [Nat.testBit_ldiff]
  rw [show (32767 : Nat) = 2 ^ 15 - 1 by norm_num, Nat.testBit_two_pow_sub_one]
  rw [show 2 ^ 15 - 1 - r = 2 ^ 15 - (r + 1) by omega,
    Nat.testBit_two_pow_sub_succ (by norm_num at h ⊢; omega)]
  by_cases hi : i < 15
  · rw [show (32768 : Nat) = 2 ^ 15 by norm_num, Nat.testBit_two_pow_add_gt hi]
  · simp [hi]

lemma to_signed_16_ofNat (m : Nat) (h : m < 65536) :
    to_signed_16 (Int.ofNat m) =
      if m < 32768 then Int.ofNat m else Int.ofNat m - 65536 := by
  have expand : to_signed_16 (Int.ofNat m) =
      Int.lor (Int.land (Int.ofNat m) 0xffff)
        (-(Int.land (Int.land (Int.ofNat m) 0xffff) 0x8000)) := rfl
  have hmask : Int.land (Int.ofNat m) 0xffff = Int.ofNat m := by
    rw [show (0xffff : Int) = Int.ofNat 65535 from rfl, int_land_ofNat]
    congr 1
    have h2 := Nat.and_pow_two_sub_one_eq_mod m 16
    norm_num at h2
    rw [h2, Nat.mod_eq_of_lt h]
  rw [expand, hmask]
  have hand := Nat.and_two_pow m 15
  norm_num at hand
  by_cases hlt : m < 32768
  · have hb : m.testBit 15 = false := Nat.testBit_lt_two_pow (by norm_num; omega)
    rw [hb] at hand
    norm_num at hand
    rw [show (0x8000 : Int) = Int.ofNat 32768 from rfl, int_land_ofNat, hand]
    rw [show (-(Int.ofNat 0) : Int) = Int.ofNat 0 from rfl, int_lor_ofNat]
    simp [hlt]
  · obtain ⟨r, hr, rfl⟩ : ∃ r, r < 32768 ∧ m = 32768 + r :=
      ⟨m - 32768, by omega, by omega⟩
    have hb : (32768 + r).testBit 15 = true := by
      rw [show (32768 : Nat) + r = 2 ^ 15 + r by norm_num, Nat.testBit_two_pow_add_eq]
      rw [Nat.testBit_lt_two_pow (by norm_num; omega)]
      rfl
    rw [hb] at hand
    norm_num at hand
    rw [show (0x8000 : Int) = Int.ofNat 32768 from rfl, int_land_ofNat, hand]
    rw [show (-(Int.ofNat 32768) : Int) = Int.negSucc 32767 from rfl,
      int_lor_ofNat_negSucc, ldiff_mask_high r hr]
    rw [if_neg hlt, Int.negSucc_eq,
      show Int.ofNat (32768 + r) = ((32768 + r : Nat) : Int) from rfl]
    omega

/-! Sequence counter lemmas. -/

set_option maxRecDepth 2048 in
lemma seq_step_mask : ∀ m < 256, (m + 1) &&& 0xff = (m + 1) % 256 := by
  decide

lemma seqRun_state (n : Nat) : (seqRun n)._value = n % 256 := by
  induction n with
  | zero => rfl
  | succ n ih =>
    show ((seqRun n).value).2._value = (n + 1) % 256
    rw [Seq.value, ih]
    exact (seq_step_mask (n % 256) (Nat.mod_lt n (by norm_num))).trans (by omega)

/-- C5: starting from a freshly constructed counter, the call number `n + 1`
of the `value` property (the `k`-th call with `k = n + 1`) returns
`n % 256 = (k - 1) % 256`, so the issued values are `0, 1, ..., 255, 0, ...`
in order with no skips and no repeats, for every number of calls. -/
theorem seq_value_sequence (n : Nat) : ((seqRun n).value).1 = n % 256 := by
  rw [Seq.value, seqRun_state]

/-- C9 counterexample: the first `value` call returns 0, yet immediately
afterwards `current_value` reads 1, not the last-issued 0 — `current_value`
reports the next value to be issued, not the most recently returned one. -/
theorem current_value_counterexample :
    (Seq.init.value).1 = 0 ∧
      (((Seq.init.value).2).current_value).1 ≠ (Seq.init.value).1 := by
  constructor
  · rfl
  · decide

/-- C9 amended: `current_value` returns, without mutating the counter, the
value that the next `value` call will return — `n % 256` after `n` calls
(0 before any call), which is one past the last-issued value, not the
last-issued value itself. -/
theorem current_value_peeks_next (n : Nat) :
    ((seqRun n).current_value).1 = ((seqRun n).value).1 ∧
      ((seqRun n).current_value).2 = seqRun n ∧
      ((seqRun n).current_value).1 = n % 256 := by
  refine ⟨rfl, rfl, ?_⟩
  rw [Seq.current_value, seqRun_state]

/-! Packet builder lemmas. -/

lemma set3_cons (a b c d v : Int) (l : List Int) :
    List.set (a :: b :: c :: d :: l) 3 v = a :: b :: c :: v :: l := rfl

/-- C6: `make_gip_packet` emits `[cmd, 0x20, seq, len(args)] ++ args` and
`make_gip_rumble_packet` emits the 13-byte packet
`[0x09, 0x00, seq, 9, 0x00, 0x0f, lt, rt, la, ra, on, off, repeat]`; in both
the byte at index 3 equals the total packet length minus 4, i.e. the number
of payload bytes after the 4-byte header. -/
theorem packet_framing (cmd : GipCmd) (args : List Int) (s : Seq)
    (lt rt la ra onv offv rep : Int) :
    (make_gip_packet cmd args s).1 =
        [Int.ofNat cmd.value, 0x20, Int.ofNat s._value, Int.ofNat args.length] ++ args ∧
      (make_gip_packet cmd args s).1.length = 4 + args.length ∧
      (make_gip_packet cmd args s).1[3]? = some (Int.ofNat args.length) ∧
      (make_gip_rumble_packet lt rt la ra s onv offv rep).1 =
        [0x09, 0x00, Int.ofNat s._value, 9, 0x00, 0x0f, lt, rt, la, ra, onv, offv, rep] ∧
      (make_gip_rumble_packet lt rt la ra s onv offv rep).1.length = 13 ∧
      (make_gip_rumble_packet lt rt la ra s onv offv rep).1[3]? = some ((13 : Int) - 4) := by
  have hmk : (make_gip_packet cmd args s).1 =
      [Int.ofNat cmd.value, 0x20, Int.ofNat s._value, Int.ofNat args.length] ++ args := by
    show List.set ([Int.ofNat cmd.value, 0x20, Int.ofNat s._value, -1] ++ args) 3
        ((([Int.ofNat cmd.value, 0x20, Int.ofNat s._value, -1] ++ args).length : Int) - 4) = _
    rw [show (([Int.ofNat cmd.value, 0x20, Int.ofNat s._value, -1] ++ args).length : Int) - 4
          = Int.ofNat args.length from by
        simp only [List.length_append, List.length_cons, List.length_nil, Int.ofNat_eq_coe]
        push_cast
        omega]
    show List.set (Int.ofNat cmd.value :: 0x20 :: Int.ofNat s._value :: -1 :: args) 3 _ = _
    rw [set3_cons]
    rfl
  have hrb : (make_gip_rumble_packet lt rt la ra s onv offv rep).1 =
      [0x09, 0x00, Int.ofNat s._value, 9, 0x00, 0x0f, lt, rt, la, ra, onv, offv, rep] := rfl
  refine ⟨hmk, ?_, ?_, hrb, ?_, ?_⟩
  · rw [hmk]
    simp only [List.length_append, List.length_cons, List.length_nil]
    try omega
  · rw [hmk]
    simp [List.getElem?_cons_succ, List.getElem?_cons_zero]
  · rw [hrb]; rfl
  · rw [hrb]; rfl

/-- C1: the claim says `get_bit` returns `false` whenever
`byteIndex ≥ len(buffer)`, but the guard tests `byte > len(array)`, an
off-by-one: at `byteIndex = len(buffer)` the function indexes past the end
and raises `IndexError` (modelled by `none`), while strictly larger indices
do return `false`. -/
theorem get_bit_boundary_fault :
    get_bit [] 0 0 = none ∧ get_bit [0xff] 1 7 = none ∧
      get_bit [] 1 0 = some false ∧ get_bit [0xff] 2 7 = some false := by
  refine ⟨rfl, rfl, rfl, rfl⟩

/-! Signed 16-bit little-endian decoding. -/

lemma le16_pair (lo hi : Nat) :
    le16 [lo, hi] = some (to_signed_16 (Int.ofNat (lo ||| (hi <<< 8)))) := rfl

lemma lor_shift8_eq_add (lo hi : Nat) (h : lo < 256) :
    lo ||| (hi <<< 8) = 256 * hi + lo := by
  rw [Nat.shiftLeft_eq, Nat.lor_comm,
    show hi * 2 ^ 8 = 2 ^ 8 * hi by ring,
    ← Nat.mul_add_lt_is_or (by norm_num; omega) hi]
  try norm_num

/-- C4: for all byte pairs `(lo, hi)`, `le16 [lo, hi]` equals
`lo ||| (hi <<< 8)` when that value is below `0x8000` and that value minus
`0x10000` otherwise; consequently decoding is the inverse of the
little-endian two's-complement encoding over the whole `int16` range,
boundary values `0x7fff` and `0x8000` included. -/
theorem le16_signed_decode :
    (∀ lo hi : Nat, lo < 256 → hi < 256 →
      le16 [lo, hi] = some (if lo ||| (hi <<< 8) < 0x8000
        then ((lo ||| (hi <<< 8) : Nat) : Int)
        else ((lo ||| (hi <<< 8) : Nat) : Int) - 0x10000)) ∧
    (∀ v : Int, -32768 ≤ v → v ≤ 32767 → le16 (encodeSigned16LE v) = some v) := by
  have key : ∀ lo hi : Nat, lo < 256 → hi < 256 →
      le16 [lo, hi] = some (if lo ||| (hi <<< 8) < 0x8000
        then ((lo ||| (hi <<< 8) : Nat) : Int)
        else ((lo ||| (hi <<< 8) : Nat) : Int) - 0x10000) := by
    intro lo hi hlo hhi
    rw [le16_pair, to_signed_16_ofNat _ (by rw [lor_shift8_eq_add lo hi hlo]; omega)]
    rfl
  refine ⟨key, ?_⟩
  intro v hv1 hv2
  have hm : 0 ≤ v % 65536 := Int.emod_nonneg v (by norm_num)
  have hm2 : v % 65536 < 65536 := Int.emod_lt_of_pos v (by norm_num)
  set u : Nat := (v % 65536).toNat with hu
  have hu1 : (u : Int) = v % 65536 := Int.toNat_of_nonneg hm
  have hu2 : u < 65536 := by omega
  show le16 [u % 256, u / 256] = some v
  rw [key (u % 256) (u / 256) (Nat.mod_lt u (by norm_num)) (by omega)]
  rw [show (u % 256) ||| ((u / 256) <<< 8) = u from by
    rw [lor_shift8_eq_add _ _ (Nat.mod_lt u (by norm_num))]
    omega]
  congr 1
  split
  · omega
  · omega

/-- Witness for C4 at concrete inputs: the byte pair `(0x00, 0x80)` decodes
to `-32768`, and `32767` survives the encode-decode round trip. -/
theorem le16_signed_decode_witness :
    le16 [0x00, 0x80] = some (-32768) ∧
      le16 (encodeSigned16LE 32767) = some 32767 := by
  constructor
  · have h := le16_signed_decode.1 0x00 0x80 (by norm_num) (by norm_num)
    simpa using h
  · exact le16_signed_decode.2 32767 (by norm_num) (by norm_num)

/-- Digital-flag extraction of `parse_input` (gip.py lines 114-122): the
SELECT, START, REC, A, B, X, Y flags in display order.  The straight-line
body of `parse_input` is split into a few helper functions here, preserving
the order of every operation. -/
def parse_flags1 (data : List Nat) : Option (List String) :=
  (get_bit data 4 3).bind fun bSelect =>
  let s1 := add_if [] "SELECT" bSelect
  (get_bit data 4 2).bind fun bStart =>
  let s2 := add_if s1 "START" bStart
  (get_bit data 22 0).bind fun bRec =>
  let s3 := add_if s2 "REC" bRec
  (get_bit data 4 4).bind fun bA =>
  let s4 := add_if s3 "A" bA
  (get_bit data 4 5).bind fun bB =>
  let s5 := add_if s4 "B" bB
  (get_bit data 4 6).bind fun bX =>
  let s6 := add_if s5 "X" bX
  (get_bit data 4 7).bind fun bY =>
  let s7 := add_if s6 "Y" bY
  some s7

/-- Digital-flag extraction of `parse_input` (gip.py lines 124-135),
continued: the byte-5 flags L, R, U, D, LB, RB, SL, SR appended to the
flag list built so far. -/
def parse_flags2 (data : List Nat) (state : List String) : Option (List String) :=
  (get_bit data 5 2).bind fun bL =>
  let s1 := add_if state "L" bL
  (get_bit data 5 3).bind fun bR =>
  let s2 := add_if s1 "R" bR
  (get_bit data 5 0).bind fun bU =>
  let s3 := add_if s2 "U" bU
  (get_bit data 5 1).bind fun bD =>
  let s4 := add_if s3 "D" bD
  (get_bit data 5 4).bind fun bLB =>
  let s5 := add_if s4 "LB" bLB
  (get_bit data 5 5).bind fun bRB =>
  let s6 := add_if s5 "RB" bRB
  (get_bit data 5 6).bind fun bSL =>
  let s7 := add_if s6 "SL" bSL
  (get_bit data 5 7).bind fun bSR =>
  let s8 := add_if s7 "SR" bSR
  some s8

/-- Numeric extraction of `parse_input` (gip.py lines 137-146): the profile
byte at offset 34 and the six little-endian signed readings at offsets
6, 8, 10, 12, 14, 16; returns the formatted list together with the tuple
`(lx, ly, rx, ry, lt, rt)` in the order `parse_input` returns it. -/
def parse_numbers (data : List Nat) :
    Option (List String × (Int × Int × Int × Int × Int × Int)) :=
  (data[34]?).bind fun d34 =>
  let n0 := (add_val [] "PRO:%d" (Int.ofNat d34)).1
  (le16 (data.drop 6)).bind fun vlt =>
  let p1 := add_val n0 "LT:%+05x" vlt
  (le16 (data.drop 8)).bind fun vrt =>
  let p2 := add_val p1.1 "RT:%+05x" vrt
  (le16 (data.drop 10)).bind fun vlx =>
  let p3 := add_val p2.1 "LX:%+05x" vlx
  (le16 (data.drop 12)).bind fun vly =>
  let p4 := add_val p3.1 "LY:%+05x" vly
  (le16 (data.drop 14)).bind fun vrx =>
  let p5 := add_val p4.1 "RX:%+05x" vrx
  (le16 (data.drop 16)).bind fun vry =>
  let p6 := add_val p5.1 "RY:%+05x" vry
  some (p6.1, (p3.2, p4.2, p5.2, p6.2, p1.2, p2.2))

/-- Function `parse_input(data)` (gip.py lines 109-147): decodes an INPUT
report into the display flag list, the formatted numeric list and the
six-axis tuple `(lx, ly, rx, ry, lt, rt)`.  Every Python list indexing that
can raise `IndexError` is threaded through the `Option` monad, so a `none`
result models an exception escaping `parse_input`. -/
def parse_input (data : List Nat) :
    Option (List String × List String × Option (Int × Int × Int × Int × Int × Int)) :=
  (data[0]?).bind fun d0 =>
  if d0 ≠ 0x20 then
    some ([], [], none)
  else
    (parse_flags1 data).bind fun stateA =>
    (parse_flags2 data stateA).bind fun state =>
    (parse_numbers data).bind fun nums =>
    some (state, nums.1, some nums.2)

example : (parse_input (0x20 :: List.replicate 40 0)).isSome = true := rfl
example : (parse_input (0x20 :: List.replicate 40 0)).map (fun r => r.2.2) =
    some (some (0, 0, 0, 0, 0, 0)) := rfl
example : parse_input [] = none := rfl
example : parse_input [0x07] = some ([], [], none) := rfl
example : parse_input [0x20] = none := rfl

/-- Body of the `0x07` (SYSTEM) dispatch arm of the main loop (gip.py lines
213-222): for a report whose first byte is `0x07` the system indicator
becomes the highlighted string when `data[4] == 1` and the plain string
otherwise; other report types leave the indicator untouched.  Reading
`data[0]` or `data[4]` past the end raises, modelled by `none`. -/
def dispatch_system (data : List Nat) (store_system : String) : Option String :=
  (data[0]?).bind fun d0 =>
  if d0 = 0x07 then
    (data[4]?).bind fun d4 =>
    if d4 = 1 then some (active "SYS") else some "sys"
  else
    some store_system

/-- Rumble derivation of the INPUT arm of the main loop (gip.py lines
230-234): motors from `values[0:4]` as `min(abs(v // 128), 255)`, then
`on = 255 - min(values[4] // 4, 255)` and `off = min(values[5] // 4, 255)`.
Python `//` is floor division, `Int.fdiv` here. -/
def derive_rumble (values : Int × Int × Int × Int × Int × Int) :
    List Int × Int × Int :=
  match values with
  | (lx, ly, rx, ry, lt, rt) =>
    let rumble := [lx, ly, rx, ry].map (fun v => min |Int.fdiv v 128| 255)
    let onv := 255 - min (Int.fdiv lt 4) 255
    let offv := min (Int.fdiv rt 4) 255
    (rumble, onv, offv)

/-- Exit-gesture logic of the INPUT arm of the main loop (gip.py lines
239-243): `exit_start` is the hold-timer (negative when not running); it is
set to the current time when no timer runs, the report is at least 5 bytes
long and bit 2 (START) or bit 3 (SELECT) of byte 4 is set, and reset to -1
in every other case -- including the case where the timer is already
running and the buttons are still held. -/
def exit_logic (exit_start : Int) (now : Int) (data : List Nat) : Int :=
  if exit_start < 0 ∧ 5 ≤ data.length ∧
      (Int.land (Int.ofNat (data.getD 4 0)) 0x04 ≠ 0 ∨
        Int.land (Int.ofNat (data.getD 4 0)) 0x08 ≠ 0) then
    now
  else
    -1

/-! Totality and dispatch facts about `parse_input`. -/

lemma bind_isSome {α β : Type} {x : Option α} {f : α → Option β}
    (hx : x.isSome) (hf : ∀ a, (f a).isSome) : (x.bind f).isSome := by
  cases x
  · simp at hx
  · exact hf _

lemma get_bit_isSome_of_lt {array : List Nat} {byte : Nat} (bit : Nat)
    (h : byte < array.length) : (get_bit array byte bit).isSome := by
  unfold get_bit
  rw [if_neg (by omega), List.getElem?_eq_getElem h]
  rfl

lemma le16_isSome {value : List Nat} (h : 2 ≤ value.length) :
    (le16 value).isSome := by
  unfold le16
  rw [List.getElem?_eq_getElem (show 0 < value.length by omega),
    List.getElem?_eq_getElem (show 1 < value.length by omega)]
  rfl

lemma parse_flags1_isSome {data : List Nat} (h : 23 ≤ data.length) :
    (parse_flags1 data).isSome := by
  unfold parse_flags1
  refine bind_isSome (get_bit_isSome_of_lt _ (by omega)) fun b1 => ?_
  refine bind_isSome (get_bit_isSome_of_lt _ (by omega)) fun b2 => ?_
  refine bind_isSome (get_bit_isSome_of_lt _ (by omega)) fun b3 => ?_
  refine bind_isSome (get_bit_isSome_of_lt _ (by omega)) fun b4 => ?_
  refine bind_isSome (get_bit_isSome_of_lt _ (by omega)) fun b5 => ?_
  refine bind_isSome (get_bit_isSome_of_lt _ (by omega)) fun b6 => ?_
  refine bind_isSome (get_bit_isSome_of_lt _ (by omega)) fun b7 => ?_
  rfl

lemma parse_flags2_isSome {data : List Nat} (state : List String)
    (h : 6 ≤ data.length) : (parse_flags2 data state).isSome := by
  unfold parse_flags2
  refine bind_isSome (get_bit_isSome_of_lt _ (by omega)) fun b1 => ?_
  refine bind_isSome (get_bit_isSome_of_lt _ (by omega)) fun b2 => ?_
  refine bind_isSome (get_bit_isSome_of_lt _ (by omega)) fun b3 => ?_
  refine bind_isSome (get_bit_isSome_of_lt _ (by omega)) fun b4 => ?_
  refine bind_isSome (get_bit_isSome_of_lt _ (by omega)) fun b5 => ?_
  refine bind_isSome (get_bit_isSome_of_lt _ (by omega)) fun b6 => ?_
  refine bind_isSome (get_bit_isSome_of_lt _ (by omega)) fun b7 => ?_
  refine bind_isSome (get_bit_isSome_of_lt _ (by omega)) fun b8 => ?_
  rfl

lemma parse_numbers_isSome {data : List Nat} (h : 35 ≤ data.length) :
    (parse_numbers data).isSome := by
  unfold parse_numbers
  have hd : ∀ k : Nat, (data.drop k).length = data.length - k := fun k =>
    List.length_drop k data
  have h34 : (data[34]?).isSome := by
    rw [List.getElem?_eq_getElem (show 34 < data.length by omega)]
    rfl
  refine bind_isSome h34 fun d34 => ?_
  refine bind_isSome (le16_isSome (by rw [hd]; omega)) fun v1 => ?_
  refine bind_isSome (le16_isSome (by rw [hd]; omega)) fun v2 => ?_
  refine bind_isSome (le16_isSome (by rw [hd]; omega)) fun v3 => ?_
  refine bind_isSome (le16_isSome (by rw [hd]; omega)) fun v4 => ?_
  refine bind_isSome (le16_isSome (by rw [hd]; omega)) fun v5 => ?_
  refine bind_isSome (le16_isSome (by rw [hd]; omega)) fun v6 => ?_
  rfl

/-- C2 counterexample: the decoder is not exception-free on arbitrary
input: the empty buffer raises at `data[0]`, a 1-byte INPUT report raises
inside `get_bit(data, 4, 3)` at `data[4]`, and a 34-byte INPUT report
raises at `data[34]` — all modelled by `none`. -/
theorem parse_input_faults_on_short :
    parse_input [] = none ∧ parse_input [0x20] = none ∧
      parse_input (0x20 :: List.replicate 33 0) = none := by
  refine ⟨rfl, rfl, rfl⟩

/-- C2 amended: `parse_input` raises no exception on any buffer of length
at least 35 (every index it touches is then in bounds), and on any
non-empty buffer whose first byte is not 0x20; the empty buffer and short
INPUT-typed buffers raise `IndexError` instead of degrading. -/
theorem parse_input_total_on_full (data : List Nat) (h : 35 ≤ data.length) :
    (parse_input data).isSome := by
  unfold parse_input
  have h0 : (data[0]?).isSome := by
    rw [List.getElem?_eq_getElem (show 0 < data.length by omega)]
    rfl
  refine bind_isSome h0 fun d0 => ?_
  by_cases h0 : d0 ≠ 0x20
  · rw [if_pos h0]
    rfl
  · rw [if_neg h0]
    refine bind_isSome (parse_flags1_isSome (by omega)) fun s1 => ?_
    refine bind_isSome (parse_flags2_isSome s1 (by omega)) fun s2 => ?_
    refine bind_isSome (parse_numbers_isSome (by omega)) fun nums => ?_
    rfl

/-- Witness for C2 amended: a 35-byte all-zero INPUT report decodes without
raising. -/
theorem parse_input_total_on_full_witness :
    (parse_input (0x20 :: List.replicate 34 0)).isSome := by
  exact parse_input_total_on_full _ (by simp)

/-- C10: on every non-empty buffer whose first byte is not 0x20,
`parse_input` returns empty button and numeric collections and no axis
tuple, whatever the rest of the buffer holds. -/
theorem parse_input_non_input (data : List Nat) (d0 : Nat)
    (h0 : data[0]? = some d0) (hne : d0 ≠ 0x20) :
    parse_input data = some ([], [], none) := by
  unfold parse_input
  rw [h0]
  simp [Option.bind, hne]

/-- Witness for C10: a buffer starting with the SYSTEM type byte decodes to
the empty result triple. -/
theorem parse_input_non_input_witness :
    parse_input [0x07, 0xff, 0xff] = some ([], [], none) := by
  exact parse_input_non_input [0x07, 0xff, 0xff] 0x07 rfl (by decide)

/-! Session-loop facts. -/

/-- C3: the claim says a running hold-to-exit timer is cancelled only when
neither SELECT nor START is set, but the code's else-branch also fires when
the timer is already running: with `exit_start = 0` (timer running) and an
INPUT report whose byte 4 is 0b00001100 (SELECT and START both held), the
update yields -1, cancelling the timer; the timer is only ever started
from the not-running state, as the second conjunct shows. -/
theorem exit_logic_cancels_while_held :
    exit_logic 0 1 [0x20, 0, 0, 0, 0x0c] = -1 ∧
      exit_logic (-1) 1 [0x20, 0, 0, 0, 0x0c] = 1 := by
  refine ⟨rfl, rfl⟩

/-- C7 counterexample: with the all-zero axis tuple, the claim predicts an
on duration of 0 (zero trigger divided by 4, clamped), but the code
computes `255 - min(0 // 4, 255) = 255`; and for a stick axis of -12800
the claim predicts motor 0 (clamp of -100 into 0-255), but the code takes
the absolute value and yields 100. -/
theorem derive_rumble_counterexample :
    (derive_rumble (0, 0, 0, 0, 0, 0)).2.1 = 255 ∧
      (255 : Int) ≠ min (max (Int.fdiv 0 4) 0) 255 ∧
      (derive_rumble (-12800, 0, 0, 0, 0, 0)).1 = [100, 0, 0, 0] ∧
      (100 : Int) ≠ min (max (Int.fdiv (-12800) 128) 0) 255 := by
  refine ⟨rfl, by decide, rfl, by decide⟩

/-- C7 amended: each motor intensity is `min(|v // 128|, 255)` — the
absolute value of the floored quotient clamped above at 255, hence always
within 0-255; the on duration is `255 - min(LT // 4, 255)` (inverted, with
no clamp below) and the off duration is `min(RT // 4, 255)` (no clamp
below). -/
theorem derive_rumble_characterisation (lx ly rx ry lt rt : Int) :
    (derive_rumble (lx, ly, rx, ry, lt, rt)).1 =
        [lx, ly, rx, ry].map
          (fun v => if |Int.fdiv v 128| ≤ 255 then |Int.fdiv v 128| else 255) ∧
      (∀ m ∈ (derive_rumble (lx, ly, rx, ry, lt, rt)).1, 0 ≤ m ∧ m ≤ 255) ∧
      (derive_rumble (lx, ly, rx, ry, lt, rt)).2.1 =
        255 - (if Int.fdiv lt 4 ≤ 255 then Int.fdiv lt 4 else 255) ∧
      (derive_rumble (lx, ly, rx, ry, lt, rt)).2.2 =
        (if Int.fdiv rt 4 ≤ 255 then Int.fdiv rt 4 else 255) := by
  refine ⟨?_, ?_, ?_, ?_⟩
  · simp [derive_rumble, min_def]
  · intro m hm
    simp [derive_rumble] at hm
    rcases hm with rfl | rfl | rfl | rfl <;>
      exact ⟨le_min (abs_nonneg _) (by norm_num), min_le_right _ _⟩
  · simp [derive_rumble, min_def]
  · simp [derive_rumble, min_def]

/-- C8 counterexample: a SYSTEM report whose byte at offset 4 is 2
(nonzero) leaves the plain indicator, although the claim demands the
active indicator for every nonzero byte: the code tests `data[4] == 1`,
not `data[4] != 0`. -/
theorem dispatch_system_counterexample :
    dispatch_system [0x07, 0, 0, 0, 2] "sys" = some "sys" ∧
      "sys" ≠ active "SYS" := by
  refine ⟨rfl, by decide⟩

/-- C8 amended: on a report whose first byte is 0x07, the indicator becomes
the active string exactly when the byte at offset 4 equals 1, and the
plain string for every other present byte value (a report shorter than 5
bytes raises instead). -/
theorem dispatch_system_eq_one (data : List Nat) (cur : String)
    (h7 : data[0]? = some 0x07) :
    (dispatch_system data cur = some (active "SYS") ↔ data[4]? = some 1) ∧
      (∀ b, data[4]? = some b → b ≠ 1 → dispatch_system data cur = some "sys") := by
  unfold dispatch_system
  rw [h7, Option.some_bind, if_pos rfl]
  constructor
  · cases h4 : data[4]? with
    | none => simp
    | some b =>
      rw [Option.some_bind]
      by_cases hb : b = 1
      · subst hb
        simp
      · rw [if_neg hb]
        constructor
        · intro hc
          exact absurd (Option.some.inj hc) (by decide)
        · intro hc
          exact absurd (Option.some.inj hc) hb
  · intro b hb hbne
    rw [hb, Option.some_bind, if_neg hbne]

/-- Witness for C8 amended: byte 1 at offset 4 activates the indicator and
byte 5 deactivates it. -/
theorem dispatch_system_eq_one_witness :
    dispatch_system [0x07, 0, 0, 0, 1] "sys" = some (active "SYS") ∧
      dispatch_system [0x07, 0, 0, 0, 5] "sys" = some "sys" := by
  constructor
  · exact (dispatch_system_eq_one [0x07, 0, 0, 0, 1] "sys" rfl).1.mpr rfl
  · exact (dispatch_system_eq_one [0x07, 0, 0, 0, 5] "sys" rfl).2 5 rfl (by decide)

end Gip
